import Mathlib

/-
Shallow embedding of the two source variants of the rust_wgpu repository:
`src/rust/src/lib.rs` (namespace `RustVar`) and `src/src/lib.rs`
(namespace `SrcVar`).  GPU objects (surface, device, queue, pipelines,
buffers) are opaque handles created once at startup; buffers are modelled
as numeric handles, pipeline choice as an enumeration, and the effects of
a frame (clear color, the single draw call, submit/present) are recorded
explicitly.  Event handling is modelled as pure state transformers, with
the outcome of `surface.get_current_texture()` supplied as an input
(`Option SurfaceError`, `none` meaning success).
-/

namespace Wgpu

/-- wgpu::Color, components modelled as rationals (f64 in the source). -/
structure Color where
  r : ℚ
  g : ℚ
  b : ℚ
  a : ℚ
deriving DecidableEq

/-- wgpu::Color::BLACK. -/
def Color.black : Color := ⟨0, 0, 0, 1⟩

/-- Which of the two render pipelines a draw call uses:
`main` = the pipeline built from shader.wgsl, `color` = the pipeline
built from color_shader.wgsl ("solid-color shader"). -/
inductive Pipeline where
  | main
  | color
deriving DecidableEq

/-- A draw call recorded into the render pass: either a plain
`draw(0..n, 0..1)` or an indexed `draw_indexed(0..n, 0, 0..1)` after
binding a vertex and an index buffer (buffers are numeric handles). -/
inductive DrawCall where
  | plain (pipeline : Pipeline) (vertexCount : Nat)
  | indexed (pipeline : Pipeline) (vbuf ibuf : Nat) (indexCount : Nat)
deriving DecidableEq

/-- The single render pass recorded by `render`: its load op clears the
attachment to `clearColor`, then exactly one draw call is recorded. -/
structure RenderPass where
  clearColor : Color
  draw : DrawCall
deriving DecidableEq

/-- Outcome of one call to `render`: which side effects happened, the
returned `Result`, and the state afterwards. -/
structure RenderOutcome (ε σ : Type) where
  requestedRedraw : Bool
  acquireAttempted : Bool
  pass : Option RenderPass
  submitted : Bool
  presented : Bool
  result : Option ε
  state : σ
deriving DecidableEq

/-- What the event-loop handler does with the control flow after
handling an event: keep running, set it to exit, or keep running after
only logging. -/
inductive Action where
  | keepRunning
  | exitLoop
  | logged
deriving DecidableEq

/-- Result of one event-loop dispatch of a redraw: the state afterwards,
the control-flow action, and whether `surface.configure` was called
while handling the event. -/
structure HandlerResult (σ : Type) where
  state : σ
  action : Action
  reconfigured : Bool
deriving DecidableEq

/-- The key codes distinguished by the programs; every other physical or
virtual key is `other n`. -/
inductive KeyCode where
  | keyC
  | keyF
  | escape
  | other (n : Nat)
deriving DecidableEq

/-- winit::dpi::PhysicalSize<u32>. -/
structure PhysicalSize where
  width : Nat
  height : Nat
deriving DecidableEq

/-- The fields of wgpu::SurfaceConfiguration the programs mutate. -/
structure SurfaceConfiguration where
  width : Nat
  height : Nat
deriving DecidableEq

/-- The vertex format shared by both variants: 3D position and RGB
color, components modelled as rationals (f32 in the source). -/
structure Vertex where
  position : ℚ × ℚ × ℚ
  color : ℚ × ℚ × ℚ
deriving DecidableEq

end Wgpu

namespace RustVar

open Wgpu

/-- wgpu::SurfaceError in the wgpu version used by src/rust
(Timeout, Outdated, Lost, OutOfMemory, Other). -/
inductive SurfaceError where
  | timeout
  | outdated
  | lost
  | outOfMemory
  | other
deriving DecidableEq

/-- VERTICES from src/rust/src/lib.rs. -/
def VERTICES : List Vertex := [
  ⟨(-0.0868241, 0.49240386, 0), (0.5, 0, 0.5)⟩,
  ⟨(-0.49513406, 0.06958647, 0), (0.5, 0, 0.5)⟩,
  ⟨(-0.21918549, -0.44939706, 0), (0.5, 0, 0.5)⟩,
  ⟨(0.35966998, -0.3473291, 0), (0.5, 0, 0.5)⟩,
  ⟨(0.44147372, 0.2347359, 0), (0.5, 0, 0.5)⟩]

/-- INDICES from src/rust/src/lib.rs (u16 values). -/
def INDICES : List Nat := [0, 1, 4, 1, 2, 4, 2, 3, 4]

/-- FUNNY_VERTICES from src/rust/src/lib.rs. -/
def FUNNY_VERTICES : List Vertex := [
  ⟨(0.05, -0.10, 0), (1, 0, 0)⟩,
  ⟨(0.15, -0.10, 0), (1, 1, 0.5)⟩,
  ⟨(0.15, -0.75, 0), (1, 0, 0)⟩,
  ⟨(0.25, -0.75, 0), (1, 0, 0)⟩,
  ⟨(0.25, -0.85, 0), (1, 0, 0)⟩,
  ⟨(0.05, -0.85, 0), (1, 0, 0)⟩,
  ⟨(0.05, -0.75, 0), (1, 0, 0)⟩,
  ⟨(0.40, -0.30, 0), (1, 0, 0)⟩,
  ⟨(0.40, -0.20, 0), (1, 0, 0)⟩,
  ⟨(0.60, -0.20, 0), (1, 0, 0)⟩,
  ⟨(0.60, -0.30, 0), (1, 0, 0)⟩,
  ⟨(0.70, -0.30, 0), (1, 0, 0)⟩,
  ⟨(0.70, -0.70, 0), (1, 0, 0)⟩,
  ⟨(0.60, -0.70, 0), (1, 0, 0)⟩,
  ⟨(0.60, -0.80, 0), (1, 0, 0)⟩,
  ⟨(0.40, -0.80, 0), (1, 0, 0)⟩,
  ⟨(0.40, -0.70, 0), (1, 0, 0)⟩,
  ⟨(0.30, -0.70, 0), (1, 0, 0)⟩,
  ⟨(0.30, -0.30, 0), (1, 0, 0)⟩,
  ⟨(0.05 + 0.7, -0.10, 0), (1, 0, 0)⟩,
  ⟨(0.15 + 0.7, -0.10, 0), (1, 1, 0.5)⟩,
  ⟨(0.15 + 0.7, -0.75, 0), (1, 0, 0)⟩,
  ⟨(0.25 + 0.7, -0.75, 0), (1, 0, 0)⟩,
  ⟨(0.25 + 0.7, -0.85, 0), (1, 0, 0)⟩,
  ⟨(0.05 + 0.7, -0.85, 0), (1, 0, 0)⟩,
  ⟨(0.05 + 0.7, -0.75, 0), (1, 0, 0)⟩]

/-- FUNNY_INDICES from src/rust/src/lib.rs (u16 values). -/
def FUNNY_INDICES : List Nat := [
  6, 1, 0,
  6, 2, 1,
  3, 6, 5,
  5, 4, 3,
  9, 8, 7,
  7, 10, 9,
  12, 11, 10,
  10, 13, 12,
  13, 15, 14,
  13, 16, 15,
  16, 18, 17,
  16, 7, 18,
  19, 21, 20,
  19, 25, 21,
  25, 23, 22,
  25, 24, 23]

/-- The mutable fields of `State` in src/rust/src/lib.rs; the opaque GPU
handles (surface, device, queue, window, the two pipelines) carry no
state the program reads back, and the four buffers are numeric handles. -/
structure State where
  config : SurfaceConfiguration
  is_surface_configured : Bool
  use_color : Bool
  vertex_buffer : Nat
  num_vertices : Nat
  index_buffer : Nat
  num_indices : Nat
  funny_vertex_buffer : Nat
  funny_num_vertices : Nat
  funny_index_buffer : Nat
  funny_num_indices : Nat
  use_funny : Bool
deriving DecidableEq

/-- State::new (src/rust/src/lib.rs lines 142-338): config takes the
window's inner size, the surface starts unconfigured, both flags start
false, the four buffers are created once and the counts are the lengths
of the four static arrays. -/
def State.new (w h : Nat) : State := {
  config := ⟨w, h⟩,
  is_surface_configured := false,
  use_color := false,
  vertex_buffer := 0,
  num_vertices := VERTICES.length,
  index_buffer := 1,
  num_indices := INDICES.length,
  funny_vertex_buffer := 2,
  funny_num_vertices := FUNNY_VERTICES.length,
  funny_index_buffer := 3,
  funny_num_indices := FUNNY_INDICES.length,
  use_funny := false }

/-- State::resize (lines 340-347).  The second component records whether
`surface.configure` was called. -/
def resize (s : State) (width height : Nat) : State × Bool :=
  if 0 < width ∧ 0 < height then
    ({ s with
        config := { s.config with width := width, height := height },
        is_surface_configured := true }, true)
  else (s, false)

/-- State::handle_key (lines 349-360).  The second component records
whether `event_loop.exit()` was called. -/
def handle_key (s : State) (code : KeyCode) (is_pressed : Bool) : State × Bool :=
  match code, is_pressed with
  | .keyC, pressed => ({ s with use_color := pressed }, false)
  | .keyF, pressed => ({ s with use_funny := pressed }, false)
  | .escape, true => (s, true)
  | _, _ => (s, false)

/-- State::update (lines 362-364) is an empty body. -/
def update (s : State) : State := s

/-- The fixed clear color of the render pass in src/rust (lines
387-392): (0.1, 0.2, 0.3, 1.0). -/
def clearColor : Color := ⟨0.1, 0.2, 0.3, 1⟩

/-- The branch on (use_color, use_funny) in render (lines 400-414). -/
def drawCall (s : State) : DrawCall :=
  if s.use_color then .plain .color 3
  else if s.use_funny then
    .indexed .main s.funny_vertex_buffer s.funny_index_buffer s.funny_num_indices
  else
    .indexed .main s.vertex_buffer s.index_buffer s.num_indices

/-- State::render (lines 367-424): request a redraw, return Ok early if
the surface is not configured, otherwise acquire the surface texture
(outcome given by `acquire`), record one render pass clearing to the
fixed color with one draw call, submit and present. -/
def render (s : State) (acquire : Option SurfaceError) :
    RenderOutcome SurfaceError State :=
  if s.is_surface_configured then
    match acquire with
    | some e => ⟨true, true, none, false, false, some e, s⟩
    | none => ⟨true, true, some ⟨clearColor, drawCall s⟩, true, true, none, s⟩
  else ⟨true, false, none, false, false, none, s⟩

/-- The RedrawRequested arm of App::window_event (lines 516-527): on
Lost or Outdated, resize with the window's current inner size (`winW`,
`winH`); every other error is only logged. -/
def redrawHandler (s : State) (acquire : Option SurfaceError) (winW winH : Nat) :
    HandlerResult State :=
  let r := render s acquire
  match r.result with
  | none => ⟨r.state, .keepRunning, false⟩
  | some .lost =>
      let p := resize r.state winW winH
      ⟨p.1, .keepRunning, p.2⟩
  | some .outdated =>
      let p := resize r.state winW winH
      ⟨p.1, .keepRunning, p.2⟩
  | some _ => ⟨r.state, .logged, false⟩

/-- The window events dispatched by App::window_event (lines 502-539). -/
inductive Op where
  | resized (w h : Nat)
  | keyboard (code : KeyCode) (pressed : Bool)
  | redraw (acquire : Option SurfaceError) (winW winH : Nat)
  | closeRequested
  | updateOnly
  | otherEvent

/-- One dispatch of App::window_event, restricted to its effect on the
state. -/
def step (s : State) (op : Op) : State :=
  match op with
  | .resized w h => (resize s w h).1
  | .keyboard c p => (handle_key s c p).1
  | .redraw a w h => (redrawHandler s a w h).state
  | .closeRequested => s
  | .updateOnly => update s
  | .otherEvent => s

/-- A run of the event loop: fold the dispatched events over the state. -/
def run (s : State) (ops : List Op) : State := ops.foldl step s

/-- The buffer handles and element counts created at startup. -/
def bufferFields (s : State) :
    Nat × Nat × Nat × Nat × Nat × Nat × Nat × Nat :=
  (s.vertex_buffer, s.num_vertices, s.index_buffer, s.num_indices,
   s.funny_vertex_buffer, s.funny_num_vertices,
   s.funny_index_buffer, s.funny_num_indices)

/-- Whether one event dispatch called `surface.configure`. -/
def stepConfigured (s : State) (op : Op) : Bool :=
  match op with
  | .resized w h => (resize s w h).2
  | .redraw a w h => (redrawHandler s a w h).reconfigured
  | _ => false

/-- The draw call as a function of the two flags alone, with the startup
buffer handles and counts. -/
def selectDraw (c f : Bool) : DrawCall :=
  if c then .plain .color 3
  else if f then .indexed .main 2 3 48
  else .indexed .main 0 1 9

end RustVar

namespace SrcVar

open Wgpu

/-- wgpu::SurfaceError in the wgpu version used by src/src
(Timeout, Outdated, Lost, OutOfMemory). -/
inductive SurfaceError where
  | timeout
  | outdated
  | lost
  | outOfMemory
deriving DecidableEq

/-- VERTICES from src/src/lib.rs (lines 446-452). -/
def VERTICES : List Vertex := [
  ⟨(-0.0868241, 0.49240386, 0), (1, 0, 0)⟩,
  ⟨(-0.49513406, 0.06958647, 0), (1, 1, 0.5)⟩,
  ⟨(-0.21918549, -0.44939706, 0), (0, 1, 0)⟩,
  ⟨(0.35966998, -0.3473291, 0), (0, 1, 1)⟩,
  ⟨(0.44147372, 0.2347359, 0), (0, 0, 1)⟩]

/-- INDICES from src/src/lib.rs (lines 455-459, u16 values). -/
def INDICES : List Nat := [0, 1, 4, 1, 2, 4, 2, 3, 4]

/-- FUNNY_VERTICES from src/src/lib.rs (lines 387-421). -/
def FUNNY_VERTICES : List Vertex := [
  ⟨(0.05, -0.10, 0), (1, 0, 0)⟩,
  ⟨(0.15, -0.10, 0), (1, 1, 0.5)⟩,
  ⟨(0.15, -0.75, 0), (1, 0, 0)⟩,
  ⟨(0.25, -0.75, 0), (1, 0, 0)⟩,
  ⟨(0.25, -0.85, 0), (1, 0, 0)⟩,
  ⟨(0.05, -0.85, 0), (1, 0, 0)⟩,
  ⟨(0.05, -0.75, 0), (1, 0, 0)⟩,
  ⟨(0.40, -0.30, 0), (1, 0, 0)⟩,
  ⟨(0.40, -0.20, 0), (1, 0, 0)⟩,
  ⟨(0.60, -0.20, 0), (1, 0, 0)⟩,
  ⟨(0.60, -0.30, 0), (1, 0, 0)⟩,
  ⟨(0.70, -0.30, 0), (1, 0, 0)⟩,
  ⟨(0.70, -0.70, 0), (1, 0, 0)⟩,
  ⟨(0.60, -0.70, 0), (1, 0, 0)⟩,
  ⟨(0.60, -0.80, 0), (1, 0, 0)⟩,
  ⟨(0.40, -0.80, 0), (1, 0, 0)⟩,
  ⟨(0.40, -0.70, 0), (1, 0, 0)⟩,
  ⟨(0.30, -0.70, 0), (1, 0, 0)⟩,
  ⟨(0.30, -0.30, 0), (1, 0, 0)⟩,
  ⟨(0.05 + 0.7, -0.10, 0), (1, 0, 0)⟩,
  ⟨(0.15 + 0.7, -0.10, 0), (1, 1, 0.5)⟩,
  ⟨(0.15 + 0.7, -0.75, 0), (1, 0, 0)⟩,
  ⟨(0.25 + 0.7, -0.75, 0), (1, 0, 0)⟩,
  ⟨(0.25 + 0.7, -0.85, 0), (1, 0, 0)⟩,
  ⟨(0.05 + 0.7, -0.85, 0), (1, 0, 0)⟩,
  ⟨(0.05 + 0.7, -0.75, 0), (1, 0, 0)⟩]

/-- FUNNY_INDICES from src/src/lib.rs (lines 423-444, u16 values). -/
def FUNNY_INDICES : List Nat := [
  6, 1, 0,
  6, 2, 1,
  3, 6, 5,
  5, 4, 3,
  9, 8, 7,
  7, 10, 9,
  12, 11, 10,
  10, 13, 12,
  13, 15, 14,
  13, 16, 15,
  16, 18, 17,
  16, 7, 18,
  19, 21, 20,
  19, 25, 21,
  25, 23, 22,
  25, 24, 23]

/-- The mutable fields of `State` in src/src/lib.rs (lines 40-67); GPU
handles are opaque, buffers are numeric handles. -/
structure State where
  config : SurfaceConfiguration
  size : PhysicalSize
  clear_color : Color
  use_color : Bool
  use_funny : Bool
  vertex_buffer : Nat
  num_vertices : Nat
  index_buffer : Nat
  num_indices : Nat
  funny_vertex_buffer : Nat
  funny_num_vertices : Nat
  funny_index_buffer : Nat
  funny_num_indices : Nat
deriving DecidableEq

/-- State::new (src/src/lib.rs lines 73-279): size and config take the
window's inner size, the clear color starts BLACK, use_color starts
true, use_funny false; the counts follow the source exactly, including
`funny_num_vertices = VERTICES.len()` on line 251. -/
def State.new (w h : Nat) : State := {
  config := ⟨w, h⟩,
  size := ⟨w, h⟩,
  clear_color := Color.black,
  use_color := true,
  use_funny := false,
  vertex_buffer := 0,
  num_vertices := VERTICES.length,
  index_buffer := 1,
  num_indices := INDICES.length,
  funny_vertex_buffer := 2,
  funny_num_vertices := VERTICES.length,
  funny_index_buffer := 3,
  funny_num_indices := FUNNY_INDICES.length }

/-- State::resize (lines 285-292).  The second component records whether
`surface.configure` was called. -/
def resize (s : State) (new_size : PhysicalSize) : State × Bool :=
  if 0 < new_size.width ∧ 0 < new_size.height then
    ({ s with
        size := new_size,
        config := { s.config with
                      width := new_size.width,
                      height := new_size.height } }, true)
  else (s, false)

/-- The window events the src/src event loop distinguishes. -/
inductive WindowEvent where
  | cursorMoved (x y : ℚ)
  | keyboardInput (keycode : Option KeyCode) (pressed : Bool)
  | closeRequested
  | resized (size : PhysicalSize)
  | scaleFactorChanged (size : PhysicalSize)
  | otherEvent

/-- State::input (lines 294-320): CursorMoved sets the clear color from
the cursor position and the stored size and is consumed; a keyboard
event with keycode C or F toggles the matching flag regardless of the
pressed state and is consumed; everything else returns false. -/
def input (s : State) (e : WindowEvent) : State × Bool :=
  match e with
  | .cursorMoved x y =>
      ({ s with clear_color :=
          ⟨x / (s.size.width : ℚ), y / (s.size.height : ℚ), 1, 1⟩ }, true)
  | .keyboardInput keycode _ =>
      match keycode with
      | some .keyC => ({ s with use_color := !s.use_color }, true)
      | some .keyF => ({ s with use_funny := !s.use_funny }, true)
      | _ => (s, false)
  | _ => (s, false)

/-- State::update (lines 322-324) is an empty body. -/
def update (s : State) : State := s

/-- The branch on (use_funny, use_color) in render (lines 357-376). -/
def drawCall (s : State) : DrawCall :=
  if s.use_funny then
    .indexed .color s.funny_vertex_buffer s.funny_index_buffer s.funny_num_indices
  else if s.use_color then
    .indexed .color s.vertex_buffer s.index_buffer s.num_indices
  else .plain .main s.num_vertices

/-- State::render (lines 327-383): acquire the surface texture (outcome
given by `acquire`), record one render pass clearing to the stored
clear_color with one draw call, submit and present. -/
def render (s : State) (acquire : Option SurfaceError) :
    RenderOutcome SurfaceError State :=
  match acquire with
  | some e => ⟨false, true, none, false, false, some e, s⟩
  | none => ⟨false, true, some ⟨s.clear_color, drawCall s⟩, true, true, none, s⟩

/-- The Event::RedrawRequested arm of the event loop (lines 533-546):
update then render; on Lost or Outdated resize with the stored size; on
OutOfMemory set the control flow to exit; on Timeout log a warning. -/
def redrawHandler (s : State) (acquire : Option SurfaceError) : HandlerResult State :=
  let s0 := update s
  let r := render s0 acquire
  match r.result with
  | none => ⟨r.state, .keepRunning, false⟩
  | some .lost =>
      let p := resize r.state r.state.size
      ⟨p.1, .keepRunning, p.2⟩
  | some .outdated =>
      let p := resize r.state r.state.size
      ⟨p.1, .keepRunning, p.2⟩
  | some .outOfMemory => ⟨r.state, .exitLoop, false⟩
  | some .timeout => ⟨r.state, .logged, false⟩

/-- The Event::WindowEvent arm of the event loop (lines 503-532): try
State::input first; when not consumed, CloseRequested and pressed
Escape exit, Resized and ScaleFactorChanged resize, anything else logs
a warning. -/
def windowEventStep (s : State) (e : WindowEvent) : State × Action :=
  let p := input s e
  if p.2 then (p.1, .keepRunning)
  else
    match e with
    | .closeRequested => (p.1, .exitLoop)
    | .keyboardInput (some .escape) true => (p.1, .exitLoop)
    | .resized size => ((resize p.1 size).1, .keepRunning)
    | .scaleFactorChanged size => ((resize p.1 size).1, .keepRunning)
    | _ => (p.1, .logged)

/-- The events dispatched by the src/src event loop (lines 501-554). -/
inductive Op where
  | window (e : WindowEvent)
  | redraw (acquire : Option SurfaceError)
  | redrawEventsCleared
  | otherEvent

/-- One dispatch of the event-loop closure, restricted to its effect on
the state. -/
def step (s : State) (op : Op) : State :=
  match op with
  | .window e => (windowEventStep s e).1
  | .redraw a => (redrawHandler s a).state
  | .redrawEventsCleared => s
  | .otherEvent => s

/-- A run of the event loop: fold the dispatched events over the state. -/
def run (s : State) (ops : List Op) : State := ops.foldl step s

/-- The buffer handles and element counts created at startup. -/
def bufferFields (s : State) :
    Nat × Nat × Nat × Nat × Nat × Nat × Nat × Nat :=
  (s.vertex_buffer, s.num_vertices, s.index_buffer, s.num_indices,
   s.funny_vertex_buffer, s.funny_num_vertices,
   s.funny_index_buffer, s.funny_num_indices)

/-- The draw call as a function of the two flags alone, with the startup
buffer handles and counts. -/
def selectDraw (c f : Bool) : DrawCall :=
  if f then .indexed .color 2 3 48
  else if c then .indexed .color 0 1 9
  else .plain .main 5

end SrcVar

section Helpers

namespace RustVar

open Wgpu

lemma rust_render_state (s : State) (a : Option SurfaceError) : (render s a).state = s := by
  unfold render
  split
  · cases a <;> rfl
  · rfl

lemma rust_bufferFields_resize (s : State) (w h : Nat) :
    bufferFields (resize s w h).1 = bufferFields s := by
  unfold resize
  split <;> rfl

lemma rust_bufferFields_handle_key (s : State) (c : KeyCode) (p : Bool) :
    bufferFields (handle_key s c p).1 = bufferFields s := by
  cases c <;> cases p <;> rfl

lemma rust_bufferFields_redrawHandler (s : State) (a : Option SurfaceError) (w h : Nat) :
    bufferFields (redrawHandler s a w h).state = bufferFields s := by
  rcases a with _ | e
  · by_cases hc : s.is_surface_configured <;> simp [redrawHandler, render, hc]
  · by_cases hc : s.is_surface_configured <;> cases e <;>
      simp [redrawHandler, render, hc, rust_bufferFields_resize]

lemma rust_bufferFields_step (s : State) (op : Op) :
    bufferFields (step s op) = bufferFields s := by
  cases op with
  | resized w h => exact rust_bufferFields_resize s w h
  | keyboard c p => exact rust_bufferFields_handle_key s c p
  | redraw a w h => exact rust_bufferFields_redrawHandler s a w h
  | closeRequested => rfl
  | updateOnly => rfl
  | otherEvent => rfl

lemma rust_bufferFields_run (s : State) (ops : List Op) :
    bufferFields (run s ops) = bufferFields s := by
  induction ops generalizing s with
  | nil => rfl
  | cons op ops ih =>
      have hstep : run s (op :: ops) = run (step s op) ops := rfl
      rw [hstep, ih (step s op), rust_bufferFields_step]

lemma rust_bufferFields_new (w h : Nat) :
    bufferFields (State.new w h) = (0, 5, 1, 9, 2, 26, 3, 48) := rfl

lemma rust_drawCall_flags (s : State)
    (hb : bufferFields s = (0, 5, 1, 9, 2, 26, 3, 48)) :
    drawCall s = selectDraw s.use_color s.use_funny := by
  simp only [bufferFields, Prod.mk.injEq] at hb
  obtain ⟨h1, h2, h3, h4, h5, h6, h7, h8⟩ := hb
  unfold drawCall selectDraw
  cases hc : s.use_color <;> cases hf : s.use_funny <;>
    simp [h1, h3, h4, h5, h7, h8]

end RustVar

namespace SrcVar

open Wgpu

lemma src_render_state (s : State) (a : Option SurfaceError) : (render s a).state = s := by
  cases a <;> rfl

lemma src_bufferFields_resize (s : State) (sz : PhysicalSize) :
    bufferFields (resize s sz).1 = bufferFields s := by
  unfold resize
  split <;> rfl

lemma src_bufferFields_input (s : State) (e : WindowEvent) :
    bufferFields (input s e).1 = bufferFields s := by
  cases e with
  | cursorMoved x y => rfl
  | keyboardInput kc p =>
      rcases kc with _ | k
      · rfl
      · cases k <;> rfl
  | closeRequested => rfl
  | resized sz => rfl
  | scaleFactorChanged sz => rfl
  | otherEvent => rfl

lemma src_bufferFields_windowEventStep (s : State) (e : WindowEvent) :
    bufferFields (windowEventStep s e).1 = bufferFields s := by
  cases e with
  | cursorMoved x y => rfl
  | keyboardInput kc p =>
      rcases kc with _ | k
      · cases p <;> rfl
      · cases k <;> cases p <;> rfl
  | closeRequested => rfl
  | resized sz => exact src_bufferFields_resize s sz
  | scaleFactorChanged sz => exact src_bufferFields_resize s sz
  | otherEvent => rfl

lemma src_bufferFields_redrawHandler (s : State) (a : Option SurfaceError) :
    bufferFields (redrawHandler s a).state = bufferFields s := by
  rcases a with _ | e
  · rfl
  · cases e <;> simp [redrawHandler, render, update, src_bufferFields_resize]

lemma src_bufferFields_step (s : State) (op : Op) :
    bufferFields (step s op) = bufferFields s := by
  cases op with
  | window e => exact src_bufferFields_windowEventStep s e
  | redraw a => exact src_bufferFields_redrawHandler s a
  | redrawEventsCleared => rfl
  | otherEvent => rfl

lemma src_bufferFields_run (s : State) (ops : List Op) :
    bufferFields (run s ops) = bufferFields s := by
  induction ops generalizing s with
  | nil => rfl
  | cons op ops ih =>
      have hstep : run s (op :: ops) = run (step s op) ops := rfl
      rw [hstep, ih (step s op), src_bufferFields_step]

lemma src_bufferFields_new (w h : Nat) :
    bufferFields (State.new w h) = (0, 5, 1, 9, 2, 5, 3, 48) := rfl

lemma src_drawCall_flags (s : State)
    (hb : bufferFields s = (0, 5, 1, 9, 2, 5, 3, 48)) :
    drawCall s = selectDraw s.use_color s.use_funny := by
  simp only [bufferFields, Prod.mk.injEq] at hb
  obtain ⟨h1, h2, h3, h4, h5, h6, h7, h8⟩ := hb
  unfold drawCall selectDraw
  cases hc : s.use_color <;> cases hf : s.use_funny <;>
    simp [h1, h2, h3, h4, h5, h7, h8]

end SrcVar

end Helpers

/-- C10: every element of INDICES is strictly less than 5, the length of
VERTICES, and every element of FUNNY_INDICES is strictly less than 26,
the length of FUNNY_VERTICES, in both source variants, so every indexed
draw over these index lists references only vertices that exist in the
corresponding vertex array. -/
theorem indices_in_bounds :
    (∀ i ∈ RustVar.INDICES, i < RustVar.VERTICES.length)
    ∧ (∀ i ∈ RustVar.FUNNY_INDICES, i < RustVar.FUNNY_VERTICES.length)
    ∧ RustVar.VERTICES.length = 5 ∧ RustVar.FUNNY_VERTICES.length = 26
    ∧ (∀ i ∈ SrcVar.INDICES, i < SrcVar.VERTICES.length)
    ∧ (∀ i ∈ SrcVar.FUNNY_INDICES, i < SrcVar.FUNNY_VERTICES.length)
    ∧ SrcVar.VERTICES.length = 5 ∧ SrcVar.FUNNY_VERTICES.length = 26 := by
  decide

/-- Witness for C10 at a concrete index of each list. -/
theorem indices_in_bounds_witness :
    (0 : Nat) < RustVar.VERTICES.length ∧ (6 : Nat) < SrcVar.FUNNY_VERTICES.length :=
  ⟨indices_in_bounds.1 0 (by decide), indices_in_bounds.2.2.2.2.2.1 6 (by decide)⟩

/-- C7: after State::new, no sequence of event dispatches (resize,
keyboard input, redraw handling with any render outcome, update, or any
other event) changes the vertex/index buffer handles or the stored
counts num_vertices, num_indices, funny_num_vertices and
funny_num_indices; they keep their startup values, which are listed
explicitly for both variants. -/
theorem buffers_immutable :
    (∀ (s : RustVar.State) (ops : List RustVar.Op),
        RustVar.bufferFields (RustVar.run s ops) = RustVar.bufferFields s)
    ∧ (∀ (t : SrcVar.State) (ops : List SrcVar.Op),
        SrcVar.bufferFields (SrcVar.run t ops) = SrcVar.bufferFields t)
    ∧ (∀ w h, RustVar.bufferFields (RustVar.State.new w h) = (0, 5, 1, 9, 2, 26, 3, 48))
    ∧ (∀ w h, SrcVar.bufferFields (SrcVar.State.new w h) = (0, 5, 1, 9, 2, 5, 3, 48)) :=
  ⟨RustVar.rust_bufferFields_run, SrcVar.src_bufferFields_run,
   fun _ _ => rfl, fun _ _ => rfl⟩

/-- C9: a keyboard event for any key other than C, F and Escape leaves
every field of the state unchanged: the wildcard arm of handle_key does
nothing in src/rust, and in src/src input returns false without
mutating the state (also for a keyboard event carrying no keycode). -/
theorem other_keys_noop :
    ∀ (s : RustVar.State) (t : SrcVar.State) (n : Nat) (p : Bool),
      RustVar.handle_key s (Wgpu.KeyCode.other n) p = (s, false)
      ∧ SrcVar.input t
          (SrcVar.WindowEvent.keyboardInput (some (Wgpu.KeyCode.other n)) p) = (t, false)
      ∧ SrcVar.input t (SrcVar.WindowEvent.keyboardInput none p) = (t, false) := by
  intro s t n p
  exact ⟨rfl, rfl, rfl⟩

/-- C1 counterexample: in the src/rust variant two consecutive C-key
press events do not restore use_color to its prior value: from the
initial state (use_color = false) the first press sets it to true and
the second press event leaves it true instead of flipping it. -/
theorem key_c_press_twice_not_restoring :
    (RustVar.handle_key (RustVar.handle_key (RustVar.State.new 640 480)
        Wgpu.KeyCode.keyC true).1 Wgpu.KeyCode.keyC true).1.use_color = true
    ∧ (RustVar.State.new 640 480).use_color = false :=
  ⟨rfl, rfl⟩

/-- C1 amended: in src/src any keyboard event with keycode C (resp. F)
toggles use_color (resp. use_funny), so two consecutive C events
restore the prior value; in src/rust handle_key instead sets use_color
(resp. use_funny) to the event's is_pressed flag, so a press followed
by a release restores a prior false value but two consecutive press
events do not toggle. -/
theorem key_toggle_semantics :
    ∀ (t : SrcVar.State) (p q : Bool) (s : RustVar.State),
      (SrcVar.input t (SrcVar.WindowEvent.keyboardInput (some Wgpu.KeyCode.keyC) p)).1.use_color
        = !t.use_color
      ∧ (SrcVar.input t (SrcVar.WindowEvent.keyboardInput (some Wgpu.KeyCode.keyF) p)).1.use_funny
        = !t.use_funny
      ∧ (SrcVar.input (SrcVar.input t
            (SrcVar.WindowEvent.keyboardInput (some Wgpu.KeyCode.keyC) p)).1
            (SrcVar.WindowEvent.keyboardInput (some Wgpu.KeyCode.keyC) q)).1.use_color
        = t.use_color
      ∧ (RustVar.handle_key s Wgpu.KeyCode.keyC p).1.use_color = p
      ∧ (RustVar.handle_key s Wgpu.KeyCode.keyF p).1.use_funny = p := by
  intro t p q s
  refine ⟨rfl, rfl, ?_, rfl, rfl⟩
  simp [SrcVar.input]

/-- C2 counterexample: in the src/rust variant, with a configured
surface, a render that fails with OutOfMemory is handled by the
catch-all arm of the handler, which only logs; the control flow is not
set to exit. -/
theorem out_of_memory_only_logged_in_rust_variant :
    (RustVar.redrawHandler (RustVar.resize (RustVar.State.new 640 480) 640 480).1
        (some RustVar.SurfaceError.outOfMemory) 640 480).action = Wgpu.Action.logged
    ∧ (RustVar.redrawHandler (RustVar.resize (RustVar.State.new 640 480) 640 480).1
        (some RustVar.SurfaceError.outOfMemory) 640 480).action ≠ Wgpu.Action.exitLoop :=
  ⟨rfl, by decide⟩

/-- C2 amended: when render returns OutOfMemory the src/src event loop
sets the control flow to exit; in the src/rust variant the OutOfMemory
error falls under the catch-all arm of the handler and is only logged,
and the handler keeps running. -/
theorem out_of_memory_handling :
    ∀ (t : SrcVar.State) (s : RustVar.State) (w h : Nat),
      (SrcVar.redrawHandler t (some SrcVar.SurfaceError.outOfMemory)).action
        = Wgpu.Action.exitLoop
      ∧ (s.is_surface_configured = true →
          (RustVar.redrawHandler s (some RustVar.SurfaceError.outOfMemory) w h).action
            = Wgpu.Action.logged) := by
  intro t s w h
  refine ⟨rfl, ?_⟩
  intro hc
  simp [RustVar.redrawHandler, RustVar.render, hc]

/-- Witness for the amended C2 at a concrete configured state. -/
theorem out_of_memory_handling_witness :
    (RustVar.redrawHandler (RustVar.resize (RustVar.State.new 800 600) 800 600).1
        (some RustVar.SurfaceError.outOfMemory) 800 600).action = Wgpu.Action.logged :=
  (out_of_memory_handling (SrcVar.State.new 800 600)
      (RustVar.resize (RustVar.State.new 800 600) 800 600).1 800 600).2 (by decide)

/-- C3: in both variants, when render returns Lost or Outdated the
handler calls resize with the current dimensions (the window's inner
size in src/rust; the stored size, which tracks the window size, in
src/src) and keeps running, and no other render outcome ever calls
surface.configure. -/
theorem lost_outdated_reconfigure :
    ∀ (s : RustVar.State) (w h : Nat) (t : SrcVar.State),
      (s.is_surface_configured = true →
        RustVar.redrawHandler s (some RustVar.SurfaceError.lost) w h
          = ⟨(RustVar.resize s w h).1, .keepRunning, (RustVar.resize s w h).2⟩
        ∧ RustVar.redrawHandler s (some RustVar.SurfaceError.outdated) w h
          = ⟨(RustVar.resize s w h).1, .keepRunning, (RustVar.resize s w h).2⟩)
      ∧ (∀ e : RustVar.SurfaceError,
          e ≠ RustVar.SurfaceError.lost → e ≠ RustVar.SurfaceError.outdated →
          (RustVar.redrawHandler s (some e) w h).reconfigured = false
          ∧ (RustVar.redrawHandler s (some e) w h).state = s)
      ∧ (RustVar.redrawHandler s none w h).reconfigured = false
      ∧ SrcVar.redrawHandler t (some SrcVar.SurfaceError.lost)
          = ⟨(SrcVar.resize t t.size).1, .keepRunning, (SrcVar.resize t t.size).2⟩
      ∧ SrcVar.redrawHandler t (some SrcVar.SurfaceError.outdated)
          = ⟨(SrcVar.resize t t.size).1, .keepRunning, (SrcVar.resize t t.size).2⟩
      ∧ (∀ e : SrcVar.SurfaceError,
          e ≠ SrcVar.SurfaceError.lost → e ≠ SrcVar.SurfaceError.outdated →
          (SrcVar.redrawHandler t (some e)).reconfigured = false
          ∧ (SrcVar.redrawHandler t (some e)).state = t)
      ∧ (SrcVar.redrawHandler t none).reconfigured = false := by
  intro s w h t
  refine ⟨?_, ?_, ?_, rfl, rfl, ?_, rfl⟩
  · intro hc
    constructor <;> simp [RustVar.redrawHandler, RustVar.render, hc]
  · intro e he1 he2
    by_cases hc : s.is_surface_configured <;>
      cases e <;>
        first
          | exact absurd rfl he1
          | exact absurd rfl he2
          | (constructor <;> simp [RustVar.redrawHandler, RustVar.render, hc])
  · by_cases hc : s.is_surface_configured <;>
      simp [RustVar.redrawHandler, RustVar.render, hc]
  · intro e he1 he2
    cases e <;>
      first
        | exact absurd rfl he1
        | exact absurd rfl he2
        | exact ⟨rfl, rfl⟩

/-- Witness for C3 at a concrete configured state and a concrete
non-retrying error. -/
theorem lost_outdated_reconfigure_witness :
    RustVar.redrawHandler (RustVar.resize (RustVar.State.new 640 480) 640 480).1
        (some RustVar.SurfaceError.lost) 640 480
      = ⟨(RustVar.resize (RustVar.resize (RustVar.State.new 640 480) 640 480).1 640 480).1,
         Wgpu.Action.keepRunning,
         (RustVar.resize (RustVar.resize (RustVar.State.new 640 480) 640 480).1 640 480).2⟩
    ∧ (RustVar.redrawHandler (RustVar.resize (RustVar.State.new 640 480) 640 480).1
        (some RustVar.SurfaceError.timeout) 640 480).reconfigured = false :=
  ⟨((lost_outdated_reconfigure (RustVar.resize (RustVar.State.new 640 480) 640 480).1
      640 480 (SrcVar.State.new 1 1)).1 (by decide)).1,
   ((lost_outdated_reconfigure (RustVar.resize (RustVar.State.new 640 480) 640 480).1
      640 480 (SrcVar.State.new 1 1)).2.1 RustVar.SurfaceError.timeout
      (by decide) (by decide)).1⟩

/-- C4: in both variants, resize with both dimensions positive sets
config.width and config.height to exactly the new values and calls
surface.configure; with either dimension zero it returns the state
completely unchanged and does not touch the surface. -/
theorem resize_spec :
    ∀ (s : RustVar.State) (t : SrcVar.State) (w h : Nat),
      (0 < w ∧ 0 < h →
        (RustVar.resize s w h).1.config.width = w
        ∧ (RustVar.resize s w h).1.config.height = h
        ∧ (RustVar.resize s w h).2 = true
        ∧ (SrcVar.resize t ⟨w, h⟩).1.config.width = w
        ∧ (SrcVar.resize t ⟨w, h⟩).1.config.height = h
        ∧ (SrcVar.resize t ⟨w, h⟩).2 = true)
      ∧ (w = 0 ∨ h = 0 →
        RustVar.resize s w h = (s, false)
        ∧ SrcVar.resize t ⟨w, h⟩ = (t, false)) := by
  intro s t w h
  constructor
  · intro hpos
    simp [RustVar.resize, SrcVar.resize, hpos]
  · intro hzero
    have hneg : ¬ (0 < w ∧ 0 < h) := by
      rcases hzero with rfl | rfl <;> simp
    simp [RustVar.resize, SrcVar.resize, hneg]

/-- Witness for C4: a positive resize sets the width, a zero-width
resize changes nothing. -/
theorem resize_spec_witness :
    (RustVar.resize (RustVar.State.new 640 480) 3 4).1.config.width = 3
    ∧ SrcVar.resize (SrcVar.State.new 640 480) ⟨0, 4⟩ = (SrcVar.State.new 640 480, false) :=
  ⟨((resize_spec (RustVar.State.new 640 480) (SrcVar.State.new 640 480) 3 4).1
      ⟨by decide, by decide⟩).1,
   ((resize_spec (RustVar.State.new 640 480) (SrcVar.State.new 640 480) 0 4).2
      (Or.inl rfl)).2⟩

/-- C5: on a redraw with a configured surface (src/src configures at
startup) and a successfully acquired texture, the render pass records
exactly one draw call, determined for every state reachable from
startup solely by the pair (use_color, use_funny) via selectDraw; the
three possible draw calls are pairwise distinct (solid-color path,
indexed letter geometry over funny_num_indices = 48 indices from the
funny buffers, and the pentagon), and with both flags set the choice is
still unique: the solid-color path in src/rust, the funny path in
src/src. -/
theorem render_one_of_three_draws :
    ∀ (w0 h0 : Nat) (rops : List RustVar.Op) (sops : List SrcVar.Op),
      ((RustVar.run (RustVar.State.new w0 h0) rops).is_surface_configured = true →
        (RustVar.render (RustVar.run (RustVar.State.new w0 h0) rops) none).pass
          = some ⟨RustVar.clearColor,
              RustVar.selectDraw
                (RustVar.run (RustVar.State.new w0 h0) rops).use_color
                (RustVar.run (RustVar.State.new w0 h0) rops).use_funny⟩)
      ∧ (SrcVar.render (SrcVar.run (SrcVar.State.new w0 h0) sops) none).pass
          = some ⟨(SrcVar.run (SrcVar.State.new w0 h0) sops).clear_color,
              SrcVar.selectDraw
                (SrcVar.run (SrcVar.State.new w0 h0) sops).use_color
                (SrcVar.run (SrcVar.State.new w0 h0) sops).use_funny⟩
      ∧ (∀ f, RustVar.selectDraw true f = Wgpu.DrawCall.plain Wgpu.Pipeline.color 3)
      ∧ RustVar.selectDraw false true
          = Wgpu.DrawCall.indexed Wgpu.Pipeline.main 2 3 48
      ∧ RustVar.selectDraw false false
          = Wgpu.DrawCall.indexed Wgpu.Pipeline.main 0 1 9
      ∧ (∀ c, SrcVar.selectDraw c true = Wgpu.DrawCall.indexed Wgpu.Pipeline.color 2 3 48)
      ∧ SrcVar.selectDraw true false
          = Wgpu.DrawCall.indexed Wgpu.Pipeline.color 0 1 9
      ∧ SrcVar.selectDraw false false = Wgpu.DrawCall.plain Wgpu.Pipeline.main 5
      ∧ RustVar.selectDraw true true ≠ RustVar.selectDraw false true
      ∧ RustVar.selectDraw true true ≠ RustVar.selectDraw false false
      ∧ RustVar.selectDraw false true ≠ RustVar.selectDraw false false
      ∧ SrcVar.selectDraw true true ≠ SrcVar.selectDraw true false
      ∧ SrcVar.selectDraw true true ≠ SrcVar.selectDraw false false
      ∧ SrcVar.selectDraw true false ≠ SrcVar.selectDraw false false := by
  intro w0 h0 rops sops
  have hrb : RustVar.bufferFields (RustVar.run (RustVar.State.new w0 h0) rops)
      = (0, 5, 1, 9, 2, 26, 3, 48) :=
    (RustVar.rust_bufferFields_run _ rops).trans (RustVar.rust_bufferFields_new w0 h0)
  have hsb : SrcVar.bufferFields (SrcVar.run (SrcVar.State.new w0 h0) sops)
      = (0, 5, 1, 9, 2, 5, 3, 48) :=
    (SrcVar.src_bufferFields_run _ sops).trans (SrcVar.src_bufferFields_new w0 h0)
  refine ⟨?_, ?_, ?_⟩
  · intro hc
    simp [RustVar.render, hc, RustVar.rust_drawCall_flags _ hrb]
  · simp [SrcVar.render, SrcVar.src_drawCall_flags _ hsb]
  · decide

/-- Witness for C5: after a successful resize the src/rust render pass
records the pentagon draw selected by the (false, false) flag pair. -/
theorem render_one_of_three_draws_witness :
    (RustVar.render (RustVar.run (RustVar.State.new 640 480)
        [RustVar.Op.resized 640 480]) none).pass
      = some ⟨RustVar.clearColor,
          RustVar.selectDraw
            (RustVar.run (RustVar.State.new 640 480) [RustVar.Op.resized 640 480]).use_color
            (RustVar.run (RustVar.State.new 640 480) [RustVar.Op.resized 640 480]).use_funny⟩ :=
  (render_one_of_three_draws 640 480 [RustVar.Op.resized 640 480] []).1 (by decide)

/-- C6: every render pass begins by clearing the attachment: in src/rust
always to the fixed color (0.1, 0.2, 0.3, 1.0); in src/src to the
stored clear_color, and every CursorMoved event sets clear_color to
(x / width, y / height, 1.0, 1.0) computed from the cursor position and
the stored window size. -/
theorem clear_color_spec :
    ∀ (s : RustVar.State) (t : SrcVar.State) (x y : ℚ),
      (s.is_surface_configured = true →
        (RustVar.render s none).pass
          = some ⟨⟨0.1, 0.2, 0.3, 1⟩, RustVar.drawCall s⟩)
      ∧ (SrcVar.render t none).pass = some ⟨t.clear_color, SrcVar.drawCall t⟩
      ∧ (SrcVar.input t (SrcVar.WindowEvent.cursorMoved x y)).1.clear_color
          = ⟨x / (t.size.width : ℚ), y / (t.size.height : ℚ), 1, 1⟩ := by
  intro s t x y
  refine ⟨?_, rfl, rfl⟩
  intro hc
  simp [RustVar.render, hc, RustVar.clearColor]

/-- Witness for C6 at a concrete configured src/rust state. -/
theorem clear_color_spec_witness :
    (RustVar.render (RustVar.resize (RustVar.State.new 640 480) 640 480).1 none).pass
      = some ⟨⟨0.1, 0.2, 0.3, 1⟩,
          RustVar.drawCall (RustVar.resize (RustVar.State.new 640 480) 640 480).1⟩ :=
  (clear_color_spec (RustVar.resize (RustVar.State.new 640 480) 640 480).1
      (SrcVar.State.new 1 1) 0 0).1 (by decide)

/-- C8: in src/rust, when the surface is not configured, render requests
a redraw and returns Ok immediately: no texture is acquired, no pass is
recorded, nothing is submitted or presented, and the state is
unchanged; a render pass exists only when the surface is configured;
the startup state is unconfigured; and the only event dispatches that
turn is_surface_configured on are those in which the resize call
actually reconfigured the surface. -/
theorem render_unconfigured_noop :
    ∀ (s : RustVar.State) (a : Option RustVar.SurfaceError) (w h : Nat) (op : RustVar.Op),
      (s.is_surface_configured = false →
        RustVar.render s a = ⟨true, false, none, false, false, none, s⟩)
      ∧ ((RustVar.render s a).pass ≠ none → s.is_surface_configured = true)
      ∧ (RustVar.State.new w h).is_surface_configured = false
      ∧ (s.is_surface_configured = false →
          (RustVar.step s op).is_surface_configured = true →
          RustVar.stepConfigured s op = true) := by
  intro s a w h op
  refine ⟨?_, ?_, rfl, ?_⟩
  · intro hfalse
    simp [RustVar.render, hfalse]
  · intro hpass
    by_cases hc : s.is_surface_configured
    · exact hc
    · exfalso
      apply hpass
      simp [RustVar.render, hc]
  · intro hfalse htrue
    cases op with
    | resized w2 h2 =>
        by_cases hp : 0 < w2 ∧ 0 < h2
        · simp [RustVar.stepConfigured, RustVar.resize, hp]
        · simp [RustVar.step, RustVar.resize, hp, hfalse] at htrue
    | keyboard c p =>
        cases c <;> cases p <;>
          simp [RustVar.step, RustVar.handle_key, hfalse] at htrue
    | redraw a2 w2 h2 =>
        rcases a2 with _ | e
        · simp [RustVar.step, RustVar.redrawHandler, RustVar.render, hfalse] at htrue
        · cases e <;>
            simp [RustVar.step, RustVar.redrawHandler, RustVar.render, hfalse] at htrue
    | closeRequested => simp [RustVar.step, hfalse] at htrue
    | updateOnly => simp [RustVar.step, RustVar.update, hfalse] at htrue
    | otherEvent => simp [RustVar.step, hfalse] at htrue

/-- Witness for C8: the startup state renders as a no-op, and a positive
resize dispatch is the reconfiguring dispatch. -/
theorem render_unconfigured_noop_witness :
    RustVar.render (RustVar.State.new 640 480) none
      = ⟨true, false, none, false, false, none, RustVar.State.new 640 480⟩
    ∧ RustVar.stepConfigured (RustVar.State.new 640 480) (RustVar.Op.resized 3 4) = true :=
  ⟨(render_unconfigured_noop (RustVar.State.new 640 480) none 1 1
      (RustVar.Op.resized 3 4)).1 rfl,
   (render_unconfigured_noop (RustVar.State.new 640 480) none 1 1
      (RustVar.Op.resized 3 4)).2.2.2 rfl (by decide)⟩
